import Mathlib

/-!
Verification of the BlazinVibe backend (src/main.py, src/schemas.py).

The backend is a FastAPI application over a MongoDB-style document store.
We shallowly embed the document model, the store adapter, the pydantic
validation models and each route handler as executable Lean definitions,
and prove the specified properties about them.

Documents are association lists from field names to values.  The store's
internal identifier (`_id`, a BSON ObjectId) is modelled as a natural
number that increases with each insertion, which captures the two facts
the code relies on: identifiers are unique, and sorting by identifier
descending yields the most recently inserted document first.
-/

/-- Primitive JSON/BSON values occurring in this backend's documents. -/
inductive Prim where
  | str (s : String)
  | num (n : Int)
  | bool (b : Bool)
  | null
  | oid (id : Nat)
deriving Repr, DecidableEq

/-- Field values: primitives, lists of strings (ticket `includes`), and
string maps (`socials`).  One nesting level suffices for every document
shape in this repository. -/
inductive Value where
  | prim (p : Prim)
  | strList (xs : List String)
  | strMap (m : List (String × String))
  | primMap (m : List (String × Prim))
deriving Repr, DecidableEq

/-- Shorthands for common values. -/
def Value.str (s : String) : Value := Value.prim (Prim.str s)

def Value.num (n : Int) : Value := Value.prim (Prim.num n)

def Value.bool (b : Bool) : Value := Value.prim (Prim.bool b)

def Value.null : Value := Value.prim Prim.null

def Value.oid (id : Nat) : Value := Value.prim (Prim.oid id)

/-- A document: an ordered mapping from field names to values
(python dicts preserve insertion order). -/
abbrev Doc := List (String × Value)

/-- First value bound to a key, as in a python dict lookup. -/
def getField : Doc → String → Option Value
  | [], _ => none
  | (k, v) :: rest, key => if k = key then some v else getField rest key

/-- Remove the first binding of a key, as in python `dict.pop`. -/
def eraseKey : Doc → String → Doc
  | [], _ => []
  | (k, v) :: rest, key => if k = key then rest else (k, v) :: eraseKey rest key

/-- `str(...)` applied to a stored `_id` value (an ObjectId). -/
def valueToString : Value → String
  | Value.prim (Prim.oid id) => toString id
  | Value.prim (Prim.str s) => s
  | _ => ""

/-- The store: one list per collection named in `schemas.py`, each entry
pairing the store-generated identifier with the document body, in
insertion order, plus the next identifier to assign. -/
structure Store where
  nextId : Nat
  eventinfo : List (Nat × Doc)
  artist : List (Nat × Doc)
  experiencezone : List (Nat × Doc)
  tickettier : List (Nat × Doc)
  faq : List (Nat × Doc)
  testimonial : List (Nat × Doc)
  mediaitem : List (Nat × Doc)
  application : List (Nat × Doc)
  newsletter : List (Nat × Doc)
deriving Repr, DecidableEq

/-- The empty store. -/
def Store.empty : Store := ⟨0, [], [], [], [], [], [], [], [], []⟩

/-- Collection lookup by name (unknown names read as empty). -/
def Store.coll (s : Store) : String → List (Nat × Doc)
  | "eventinfo" => s.eventinfo
  | "artist" => s.artist
  | "experiencezone" => s.experiencezone
  | "tickettier" => s.tickettier
  | "faq" => s.faq
  | "testimonial" => s.testimonial
  | "mediaitem" => s.mediaitem
  | "application" => s.application
  | "newsletter" => s.newsletter
  | _ => []

/-- Collection update by name (unknown names are ignored). -/
def Store.setColl (s : Store) : String → List (Nat × Doc) → Store
  | "eventinfo", l => { s with eventinfo := l }
  | "artist", l => { s with artist := l }
  | "experiencezone", l => { s with experiencezone := l }
  | "tickettier", l => { s with tickettier := l }
  | "faq", l => { s with faq := l }
  | "testimonial", l => { s with testimonial := l }
  | "mediaitem", l => { s with mediaitem := l }
  | "newsletter", l => { s with newsletter := l }
  | "application", l => { s with application := l }
  | _, _ => s

/-- True when one document field matches a filter entry exactly. -/
def fieldMatches (d : Doc) (kv : String × Value) : Bool :=
  getField d kv.1 = some kv.2

/-- Exact-match conjunctive filter over a document. -/
def docMatches (filt : Doc) (d : Doc) : Bool :=
  filt.all (fieldMatches d)

/-- Modelled from the spec: `database.py` is not under `src/`; per §4.1,
`insertOne(collection, document) -> generatedId` assigns a
store-generated unique identifier, persists the document, and returns
the identifier as a string. -/
def create_document (coll : String) (data : Doc) (s : Store) : String × Store :=
  let s₁ := s.setColl coll (s.coll coll ++ [(s.nextId, data)])
  (toString s.nextId, { s₁ with nextId := s.nextId + 1 })

/-- Modelled from the spec: `database.py` is not under `src/`; per §4.1,
`findMany(collection, filter)` treats the filter as a mapping from field
name to exact-match value, conjunctive AND across fields, and returns
the matching documents in insertion order. -/
def get_documents (s : Store) (coll : String) (filt : Doc) : List (Nat × Doc) :=
  (s.coll coll).filter (fun p => docMatches filt p.2)

/-- pymongo `find_one(sort=[("_id", -1)])`: the document with the
largest identifier, i.e. the most recently inserted one. -/
def find_one_latest : List (Nat × Doc) → Option (Nat × Doc)
  | [] => none
  | x :: xs =>
      match find_one_latest xs with
      | none => some x
      | some y => some (if x.1 ≥ y.1 then x else y)

/-- pymongo `replace_one({}, data, upsert=True)`: with the
always-matching empty filter, replace the first document in place
(keeping its identifier) or insert a fresh one into an empty
collection.  Returns the collection and the next identifier. -/
def replace_one_empty_upsert (data : Doc) (l : List (Nat × Doc)) (next : Nat) :
    List (Nat × Doc) × Nat :=
  match l with
  | [] => ([(next, data)], next + 1)
  | (i, _) :: rest => ((i, data) :: rest, next)

/-- A document as returned by the store driver: the internal `_id`
field followed by the stored body. -/
def materialize (p : Nat × Doc) : Doc :=
  ("_id", Value.oid p.1) :: p.2

/-- The handlers' `doc["id"] = str(doc.pop("_id"))` idiom: drop the
internal identifier field and append its string form under `id`. -/
def popRenameId (d : Doc) : Doc :=
  eraseKey d "_id" ++ [("id", Value.str (valueToString ((getField d "_id").getD Value.null)))]

/-- Shape every read handler applies to each fetched document. -/
def exposeDoc (p : Nat × Doc) : Doc :=
  popRenameId (materialize p)

/-!
## Pydantic request models (src/main.py)

FastAPI parses the JSON request body against the endpoint's pydantic
model before the handler runs; a body that fails validation is rejected
with a client validation error and the handler never executes.  We model
each request model as a structure together with a `parse` function from
a raw JSON object (required string fields must be present as strings;
optional fields may be absent or null; unknown fields are ignored, the
pydantic default) and a `model_dump` function producing the document the
handler persists (optional fields absent from the payload dump as null).
-/

/-- Read a required `str` field of a pydantic model from the raw body. -/
def reqStr (raw : Doc) (key : String) : Option String :=
  match getField raw key with
  | some (Value.prim (Prim.str s)) => some s
  | _ => none

/-- Read an `Optional[str] = None` field of a pydantic model. -/
def optStr (raw : Doc) (key : String) : Option (Option String)  :=
  match getField raw key with
  | none => some none
  | some (Value.prim Prim.null) => some none
  | some (Value.prim (Prim.str s)) => some (some s)
  | some _ => none

/-- An `Optional[str]` value as dumped into a document. -/
def dumpOptStr : Option String → Value
  | none => Value.null
  | some s => Value.str s

/-- `EventInfoIn` (src/main.py:73): the write-path validator for
`POST /api/eventinfo`.  Only `name`, `date_iso` and `venue` are
required; everything else is optional with default `None`. -/
structure EventInfoIn where
  name : String
  tagline : Option String := none
  date_iso : String
  venue : String
  address : Option String := none
  city : Option String := none
  country : Option String := none
  ticket_url : Option String := none
  socials : Option (List (String × String)) := none
deriving Repr, DecidableEq

/-- Parse a raw JSON object as `EventInfoIn`. -/
def EventInfoIn.parse (raw : Doc) : Option EventInfoIn := do
  let name ← reqStr raw "name"
  let tagline ← optStr raw "tagline"
  let date_iso ← reqStr raw "date_iso"
  let venue ← reqStr raw "venue"
  let address ← optStr raw "address"
  let city ← optStr raw "city"
  let country ← optStr raw "country"
  let ticket_url ← optStr raw "ticket_url"
  let socials ←
    match getField raw "socials" with
    | none => some none
    | some (Value.prim Prim.null) => some none
    | some (Value.strMap m) => some (some m)
    | some _ => none
  pure ⟨name, tagline, date_iso, venue, address, city, country, ticket_url, socials⟩

/-- `payload.model_dump()` for `EventInfoIn`. -/
def EventInfoIn.model_dump (p : EventInfoIn) : Doc :=
  [("name", Value.str p.name),
   ("tagline", dumpOptStr p.tagline),
   ("date_iso", Value.str p.date_iso),
   ("venue", Value.str p.venue),
   ("address", dumpOptStr p.address),
   ("city", dumpOptStr p.city),
   ("country", dumpOptStr p.country),
   ("ticket_url", dumpOptStr p.ticket_url),
   ("socials", match p.socials with
               | none => Value.null
               | some m => Value.strMap m)]

/-- `ApplicationIn` (src/main.py:153): the write-path validator for
`POST /api/apply`.  Note that `discipline` is a plain `str`, not the
`Literal` enumeration of `schemas.Application`, and that the model has
no `status` field at all. -/
structure ApplicationIn where
  name : String
  discipline : String
  portfolio : Option String := none
  bio : Option String := none
  instagram : Option String := none
  tiktok : Option String := none
  twitter : Option String := none
  email : String
deriving Repr, DecidableEq

/-- Parse a raw JSON object as `ApplicationIn`. -/
def ApplicationIn.parse (raw : Doc) : Option ApplicationIn := do
  let name ← reqStr raw "name"
  let discipline ← reqStr raw "discipline"
  let portfolio ← optStr raw "portfolio"
  let bio ← optStr raw "bio"
  let instagram ← optStr raw "instagram"
  let tiktok ← optStr raw "tiktok"
  let twitter ← optStr raw "twitter"
  let email ← reqStr raw "email"
  pure ⟨name, discipline, portfolio, bio, instagram, tiktok, twitter, email⟩

/-- `payload.model_dump()` for `ApplicationIn`. -/
def ApplicationIn.model_dump (p : ApplicationIn) : Doc :=
  [("name", Value.str p.name),
   ("discipline", Value.str p.discipline),
   ("portfolio", dumpOptStr p.portfolio),
   ("bio", dumpOptStr p.bio),
   ("instagram", dumpOptStr p.instagram),
   ("tiktok", dumpOptStr p.tiktok),
   ("twitter", dumpOptStr p.twitter),
   ("email", Value.str p.email)]

/-- `NewsletterIn` (src/main.py:172): the write-path validator for
`POST /api/newsletter`.  It has no `source` field. -/
structure NewsletterIn where
  email : String
  name : Option String := none
deriving Repr, DecidableEq

/-- Parse a raw JSON object as `NewsletterIn`. -/
def NewsletterIn.parse (raw : Doc) : Option NewsletterIn := do
  let email ← reqStr raw "email"
  let name ← optStr raw "name"
  pure ⟨email, name⟩

/-- `payload.model_dump()` for `NewsletterIn`. -/
def NewsletterIn.model_dump (p : NewsletterIn) : Doc :=
  [("email", Value.str p.email),
   ("name", dumpOptStr p.name)]

/-!
## Collection schemas (src/schemas.py)

These pydantic models describe the MongoDB collections; per the note at
the bottom of `schemas.py` they are used by the admin tooling for
validation and collection setup, not by the public endpoints.  We embed
the validators of the three schemas the claims mention.
-/

/-- The closed `discipline` enumeration of `schemas.Application`. -/
def disciplineValues : List String :=
  ["DJ", "Live Band", "Visual Artist", "Performer", "Other"]

/-- The closed `status` enumeration of `schemas.Application`. -/
def statusValues : List String :=
  ["submitted", "reviewed", "accepted", "rejected"]

/-- `schemas.Eventinfo`: `name`, `date_iso`, `venue`, `address`,
`city`, `country` are all required; `tagline` and `ticket_url` are
optional; `socials` defaults to the empty map.  (The `HttpUrl` format
check on `ticket_url` is not modelled; no claim exercises it.) -/
structure Eventinfo where
  name : String
  tagline : Option String := none
  date_iso : String
  venue : String
  address : String
  city : String
  country : String
  ticket_url : Option String := none
  socials : List (String × String) := []
deriving Repr, DecidableEq

/-- Parse a raw JSON object against the `schemas.Eventinfo` validator. -/
def Eventinfo.parse (raw : Doc) : Option Eventinfo := do
  let name ← reqStr raw "name"
  let tagline ← optStr raw "tagline"
  let date_iso ← reqStr raw "date_iso"
  let venue ← reqStr raw "venue"
  let address ← reqStr raw "address"
  let city ← reqStr raw "city"
  let country ← reqStr raw "country"
  let ticket_url ← optStr raw "ticket_url"
  let socials ←
    match getField raw "socials" with
    | none => some []
    | some (Value.prim Prim.null) => some []
    | some (Value.strMap m) => some m
    | some _ => none
  pure ⟨name, tagline, date_iso, venue, address, city, country, ticket_url, socials⟩

/-- A `Literal[...]` field with a default: absent or null takes the
default, a listed string is accepted, anything else is rejected. -/
def literalWithDefault (raw : Doc) (key : String) (allowed : List String)
    (dflt : String) : Option String :=
  match getField raw key with
  | none => some dflt
  | some (Value.prim Prim.null) => some dflt
  | some (Value.prim (Prim.str s)) => if s ∈ allowed then some s else none
  | some _ => none

/-- `schemas.Application`: the admin-side collection schema, whose
`discipline` and `status` fields are closed `Literal` enumerations with
defaults `Other` and `submitted`. -/
structure Application where
  name : String
  discipline : String := "Other"
  portfolio : Option String := none
  bio : Option String := none
  instagram : Option String := none
  tiktok : Option String := none
  twitter : Option String := none
  email : String
  status : String := "submitted"
deriving Repr, DecidableEq

/-- Parse a raw JSON object against the `schemas.Application` validator. -/
def Application.parse (raw : Doc) : Option Application := do
  let name ← reqStr raw "name"
  let discipline ← literalWithDefault raw "discipline" disciplineValues "Other"
  let portfolio ← optStr raw "portfolio"
  let bio ← optStr raw "bio"
  let instagram ← optStr raw "instagram"
  let tiktok ← optStr raw "tiktok"
  let twitter ← optStr raw "twitter"
  let email ← reqStr raw "email"
  let status ← literalWithDefault raw "status" statusValues "submitted"
  pure ⟨name, discipline, portfolio, bio, instagram, tiktok, twitter, email, status⟩

/-- `schemas.Newsletter`: the admin-side collection schema, whose
`source` field is `Optional[str]` defaulting to `"website"`. -/
structure Newsletter where
  email : String
  name : Option String := none
  source : Option String := some "website"
deriving Repr, DecidableEq

/-- Parse a raw JSON object against the `schemas.Newsletter` validator;
an absent `source` takes the default `"website"`. -/
def Newsletter.parse (raw : Doc) : Option Newsletter := do
  let email ← reqStr raw "email"
  let name ← optStr raw "name"
  let source ←
    match getField raw "source" with
    | none => some (some "website")
    | some (Value.prim Prim.null) => some none
    | some (Value.prim (Prim.str s)) => some (some s)
    | some _ => none
  pure ⟨email, name, source⟩

/-!
## Route handlers (src/main.py)

Each handler takes the module-level store handle `db : Option Store`
(absent when the connection failed at startup) and returns its HTTP
outcome; write handlers also return the updated handle.  Read handlers
return a JSON object or array; write handlers either succeed with a
JSON object body or raise `HTTPException(503)` when `db is None`.
A raw-body route additionally models FastAPI's validation step, which
rejects a malformed body with a 422 validation error before the handler
runs.
-/

/-- A read endpoint's JSON result: a single object or an array. -/
inductive ReadResp where
  | obj (d : Doc)
  | arr (ds : List Doc)
deriving Repr, DecidableEq

/-- A write endpoint's outcome: a 200 JSON body, an `HTTPException`
raised by the handler, or a FastAPI validation error (422) for a body
the pydantic model rejects. -/
inductive WResp where
  | ok (body : Doc)
  | httpError (status : Nat) (detail : String)
  | validationError
deriving Repr, DecidableEq

/-- `GET /api/eventinfo` (src/main.py:62): latest document by `_id`
descending, `{}` when the store is absent or the collection empty. -/
def get_event_info (db : Option Store) : ReadResp :=
  match db with
  | none => ReadResp.obj []
  | some s =>
      match find_one_latest s.eventinfo with
      | none => ReadResp.obj []
      | some p => ReadResp.obj (exposeDoc p)

/-- `POST /api/eventinfo` (src/main.py:84): 503 when the store is
absent, otherwise `replace_one({}, data, upsert=True)` on the
`eventinfo` collection and the body `{"ok": true}`. -/
def upsert_event_info (payload : EventInfoIn) (db : Option Store) :
    WResp × Option Store :=
  match db with
  | none => (WResp.httpError 503 "Database not available", none)
  | some s =>
      let r := replace_one_empty_upsert payload.model_dump s.eventinfo s.nextId
      (WResp.ok [("ok", Value.bool true)],
       some { s with eventinfo := r.1, nextId := r.2 })

/-- The filter `GET /api/artists` builds from its query parameters:
`if role:` is a python truthiness test, so an empty-string `role` adds
no filter entry; `if headliner is not None:` adds the boolean exactly
when the parameter was supplied. -/
def artistsFilter (role : Option String) (headliner : Option Bool) : Doc :=
  (match role with
   | some r => if r = "" then [] else [("role", Value.str r)]
   | none => []) ++
  (match headliner with
   | some b => [("headliner", Value.bool b)]
   | none => [])

/-- `GET /api/artists` (src/main.py:93). -/
def list_artists (role : Option String) (headliner : Option Bool)
    (db : Option Store) : ReadResp :=
  match db with
  | none => ReadResp.arr []
  | some s =>
      ReadResp.arr ((get_documents s "artist" (artistsFilter role headliner)).map exposeDoc)

/-- `GET /api/experiences` (src/main.py:107). -/
def list_experiences (db : Option Store) : ReadResp :=
  match db with
  | none => ReadResp.arr []
  | some s => ReadResp.arr ((get_documents s "experiencezone" []).map exposeDoc)

/-- `GET /api/tickets` (src/main.py:116). -/
def list_tickets (db : Option Store) : ReadResp :=
  match db with
  | none => ReadResp.arr []
  | some s => ReadResp.arr ((get_documents s "tickettier" []).map exposeDoc)

/-- `GET /api/faqs` (src/main.py:125). -/
def list_faqs (db : Option Store) : ReadResp :=
  match db with
  | none => ReadResp.arr []
  | some s => ReadResp.arr ((get_documents s "faq" []).map exposeDoc)

/-- `GET /api/testimonials` (src/main.py:134). -/
def list_testimonials (db : Option Store) : ReadResp :=
  match db with
  | none => ReadResp.arr []
  | some s => ReadResp.arr ((get_documents s "testimonial" []).map exposeDoc)

/-- `GET /api/media` (src/main.py:143). -/
def list_media (db : Option Store) : ReadResp :=
  match db with
  | none => ReadResp.arr []
  | some s => ReadResp.arr ((get_documents s "mediaitem" []).map exposeDoc)

/-- `POST /api/apply` (src/main.py:163): 503 when the store is absent;
otherwise dump the payload, force `status = "submitted"`, insert into
`application`, and acknowledge with the generated id. -/
def submit_application (payload : ApplicationIn) (db : Option Store) :
    WResp × Option Store :=
  match db with
  | none => (WResp.httpError 503 "Database not available", none)
  | some s =>
      let data := payload.model_dump ++ [("status", Value.str "submitted")]
      let r := create_document "application" data s
      (WResp.ok [("ok", Value.bool true),
                 ("id", Value.str r.1),
                 ("message", Value.str "Thanks for applying — we’ll get back to you soon.")],
       some r.2)

/-- `POST /api/apply` including FastAPI's body validation step. -/
def post_apply (raw : Doc) (db : Option Store) : WResp × Option Store :=
  match ApplicationIn.parse raw with
  | none => (WResp.validationError, db)
  | some payload => submit_application payload db

/-- `POST /api/newsletter` (src/main.py:176): 503 when the store is
absent; otherwise insert the dumped payload into `newsletter`. -/
def subscribe_newsletter (payload : NewsletterIn) (db : Option Store) :
    WResp × Option Store :=
  match db with
  | none => (WResp.httpError 503 "Database not available", none)
  | some s =>
      let r := create_document "newsletter" payload.model_dump s
      (WResp.ok [("ok", Value.bool true),
                 ("id", Value.str r.1),
                 ("message", Value.str "Thanks for joining the vibe!")],
       some r.2)

/-- `POST /api/newsletter` including FastAPI's body validation step. -/
def post_newsletter (raw : Doc) (db : Option Store) : WResp × Option Store :=
  match NewsletterIn.parse raw with
  | none => (WResp.validationError, db)
  | some payload => subscribe_newsletter payload db

/-!
## Seed utility (src/main.py:184)

`POST /api/seed` checks `count_documents({}) == 0` for each of six
collections and, only when a collection is empty, inserts its fixed
demo documents via `create_document`, counting what it created.  The
literal content below is the source's, verbatim.
-/

/-- The demo `eventinfo` document (src/main.py:193). -/
def eventinfoSeedDoc : Doc :=
  [("name", Value.str "BlazinVibe"),
   ("tagline", Value.str "Feel the Beat. Live the Vibe."),
   ("date_iso", Value.str "2025-08-23T18:00:00Z"),
   ("venue", Value.str "Neon Docks"),
   ("address", Value.str "Pier 7, Riverfront"),
   ("city", Value.str "Riverfront City"),
   ("country", Value.str "USA"),
   ("ticket_url", Value.str "https://tickets.blazinvibe.io"),
   ("socials", Value.strMap
      [("instagram", "https://instagram.com/blazinvibe"),
       ("twitter", "https://twitter.com/blazinvibe")])]

/-- The demo artist documents (src/main.py:210). -/
def artistSeedDocs : List Doc :=
  [[("name", Value.str "NovaPulse"), ("role", Value.str "DJ"),
    ("bio", Value.str "Bass-heavy cosmic journeys."), ("headliner", Value.bool true)],
   [("name", Value.str "Synesthesia"), ("role", Value.str "Live Band"),
    ("bio", Value.str "Synthwave meets indie electronica.")],
   [("name", Value.str "VJ Lumen"), ("role", Value.str "Visual Artist"),
    ("bio", Value.str "Projection mapping wizard.")],
   [("name", Value.str "Flux Dancers"), ("role", Value.str "Performer"),
    ("bio", Value.str "Immersive choreographies and LED suits.")],
   [("name", Value.str "Echo Drift"), ("role", Value.str "DJ"),
    ("bio", Value.str "Hypnotic house and rolling techno.")],
   [("name", Value.str "Orbitals"), ("role", Value.str "Live Band"),
    ("bio", Value.str "Modular synths and drum machines live.")],
   [("name", Value.str "PrismArt"), ("role", Value.str "Visual Artist"),
    ("bio", Value.str "Holographic sculptures and lasers.")],
   [("name", Value.str "Aerial Flux"), ("role", Value.str "Performer"),
    ("bio", Value.str "Aerial silk performers in neon.")],
   [("name", Value.str "Deep Current"), ("role", Value.str "DJ"),
    ("bio", Value.str "Submerged basslines and liquid DnB.")]]

/-- The demo experience-zone documents (src/main.py:227). -/
def zoneSeedDocs : List Doc :=
  [[("title", Value.str "Main Stage"), ("kind", Value.str "Live Set"),
    ("description", Value.str "Headliner sets with full-spectrum lasers.")],
   [("title", Value.str "Neon Garden"), ("kind", Value.str "Installation"),
    ("description", Value.str "Interactive light trails and art.")],
   [("title", Value.str "Chill Harbor"), ("kind", Value.str "Chill"),
    ("description", Value.str "Low-tempo grooves and ambient visuals.")],
   [("title", Value.str "Creator Playground"), ("kind", Value.str "Workshop"),
    ("description", Value.str "DIY visuals, beat labs, and collab corners.")],
   [("title", Value.str "VIP Skydeck"), ("kind", Value.str "Lounge"),
    ("description", Value.str "Panoramic views, exclusive bar, concierge.")]]

/-- The demo ticket-tier documents (src/main.py:240). -/
def tierSeedDocs : List Doc :=
  [[("name", Value.str "Early Bird"), ("price", Value.num 49),
    ("currency", Value.str "USD"),
    ("includes", Value.strList ["General entry", "Installations"])],
   [("name", Value.str "General Admission"), ("price", Value.num 79),
    ("currency", Value.str "USD"),
    ("includes", Value.strList ["All stages", "Installations", "Creator Playground"])],
   [("name", Value.str "VIP"), ("price", Value.num 149),
    ("currency", Value.str "USD"),
    ("includes", Value.strList ["VIP lounge", "Priority entry", "Exclusive bar"])],
   [("name", Value.str "Group 4-Pack"), ("price", Value.num 280),
    ("currency", Value.str "USD"),
    ("includes", Value.strList ["4x GA passes", "Merch discount"])]]

/-- The demo FAQ documents (src/main.py:252). -/
def faqSeedDocs : List Doc :=
  [[("question", Value.str "What time do doors open?"),
    ("answer", Value.str "Doors open at 6:00 PM.")],
   [("question", Value.str "Is there re-entry?"),
    ("answer", Value.str "Yes, with wristband and valid ID.")],
   [("question", Value.str "Is the event all-ages?"),
    ("answer", Value.str "18+ with valid ID.")],
   [("question", Value.str "Will there be food?"),
    ("answer", Value.str "Yes, a variety of street food vendors and vegan options.")]]

/-- The demo media documents (src/main.py:264). -/
def mediaSeedDocs : List Doc :=
  [[("kind", Value.str "photo"),
    ("url", Value.str "https://images.unsplash.com/photo-1518972559570-7cc1309f3229"),
    ("alt", Value.str "Crowd bathed in neon lights")],
   [("kind", Value.str "photo"),
    ("url", Value.str "https://images.unsplash.com/photo-1540575467063-178a50c2df87"),
    ("alt", Value.str "DJ on stage with lasers")],
   [("kind", Value.str "photo"),
    ("url", Value.str "https://images.unsplash.com/photo-1487180144351-b8472da7d491"),
    ("alt", Value.str "Colorful light trails in dark hall")],
   [("kind", Value.str "photo"),
    ("url", Value.str "https://images.unsplash.com/photo-1492684223066-81342ee5ff30"),
    ("alt", Value.str "Hands up in the air at concert")],
   [("kind", Value.str "photo"),
    ("url", Value.str "https://images.unsplash.com/photo-1492684223066-42c7cf8a1f7a"),
    ("alt", Value.str "Laser beams over crowd")],
   [("kind", Value.str "video"),
    ("url", Value.str "https://storage.googleapis.com/gtv-videos-bucket/sample/BigBuckBunny.mp4"),
    ("alt", Value.str "Aftermovie clip sample")]]

/-- Insert a list of documents in order via `create_document`. -/
def seedMany (coll : String) (docs : List Doc) (s : Store) : Store :=
  docs.foldl (fun st d => (create_document coll d st).2) s

/-- The `eventinfo` block of the seed handler: insert only when the
collection is empty, reporting whether anything was created. -/
def seedEventinfo (s : Store) : Bool × Store :=
  if s.eventinfo.length = 0 then (true, (create_document "eventinfo" eventinfoSeedDoc s).2)
  else (false, s)

/-- The `artist` block of the seed handler. -/
def seedArtists (s : Store) : Nat × Store :=
  if s.artist.length = 0 then (artistSeedDocs.length, seedMany "artist" artistSeedDocs s)
  else (0, s)

/-- The `experiencezone` block of the seed handler. -/
def seedZones (s : Store) : Nat × Store :=
  if s.experiencezone.length = 0 then (zoneSeedDocs.length, seedMany "experiencezone" zoneSeedDocs s)
  else (0, s)

/-- The `tickettier` block of the seed handler. -/
def seedTiers (s : Store) : Nat × Store :=
  if s.tickettier.length = 0 then (tierSeedDocs.length, seedMany "tickettier" tierSeedDocs s)
  else (0, s)

/-- The `faq` block of the seed handler. -/
def seedFaqs (s : Store) : Nat × Store :=
  if s.faq.length = 0 then (faqSeedDocs.length, seedMany "faq" faqSeedDocs s)
  else (0, s)

/-- The `mediaitem` block of the seed handler. -/
def seedMedia (s : Store) : Nat × Store :=
  if s.mediaitem.length = 0 then (mediaSeedDocs.length, seedMany "mediaitem" mediaSeedDocs s)
  else (0, s)

/-- `POST /api/seed` (src/main.py:184): 503 when the store is absent;
otherwise run the six per-collection blocks in order and report the
`created` summary. -/
def seed_demo_content (db : Option Store) : WResp × Option Store :=
  match db with
  | none => (WResp.httpError 503 "Database not available", none)
  | some s =>
      let r1 := seedEventinfo s
      let r2 := seedArtists r1.2
      let r3 := seedZones r2.2
      let r4 := seedTiers r3.2
      let r5 := seedFaqs r4.2
      let r6 := seedMedia r5.2
      (WResp.ok [("ok", Value.bool true),
                 ("created", Value.primMap
                    [("eventinfo", Prim.bool r1.1),
                     ("artist", Prim.num r2.1),
                     ("experiencezone", Prim.num r3.1),
                     ("tickettier", Prim.num r4.1),
                     ("faq", Prim.num r5.1),
                     ("mediaitem", Prim.num r6.1)])],
       some r6.2)

/-!
## Auxiliary definitions used by the statements
-/

/-- A sequence of `POST /api/eventinfo` requests against an available
store: each step feeds the updated handle to the next request. -/
def runUpserts (ps : List EventInfoIn) (s : Store) : Store :=
  ps.foldl (fun st p => ((upsert_event_info p (some st)).2).getD st) s

/-- Spec-side filter on one artist document (spec §8): for each
supplied filter value, the corresponding field must equal it; no
supplied value means no constraint. -/
def specArtistPred (role : Option String) (headliner : Option Bool) (p : Nat × Doc) : Bool :=
  (match role with
   | some r => decide (getField p.2 "role" = some (Value.str r))
   | none => true) &&
  (match headliner with
   | some b => decide (getField p.2 "headliner" = some (Value.bool b))
   | none => true)

/-- Spec-side reading of `GET /api/artists`: exactly the subset of
artist documents passing `specArtistPred`.  Stated from the spec's
words, to be compared with `list_artists`. -/
def listArtistsSpec (role : Option String) (headliner : Option Bool) (s : Store) : ReadResp :=
  ReadResp.arr ((s.artist.filter (specArtistPred role headliner)).map exposeDoc)

/-- A stored document body that uses neither of the reserved key names
`_id` and `id`; every document this API can persist satisfies it. -/
def DocPublic (d : Doc) : Prop :=
  ∀ kv ∈ d, kv.1 ≠ "_id" ∧ kv.1 ≠ "id"

instance (d : Doc) : Decidable (DocPublic d) := by
  unfold DocPublic; infer_instance

/-- Every read collection holds only `DocPublic` bodies. -/
def StoreWF (s : Store) : Prop :=
  (∀ p ∈ s.eventinfo, DocPublic p.2) ∧
  (∀ p ∈ s.artist, DocPublic p.2) ∧
  (∀ p ∈ s.experiencezone, DocPublic p.2) ∧
  (∀ p ∈ s.tickettier, DocPublic p.2) ∧
  (∀ p ∈ s.faq, DocPublic p.2) ∧
  (∀ p ∈ s.testimonial, DocPublic p.2) ∧
  (∀ p ∈ s.mediaitem, DocPublic p.2)

instance (s : Store) : Decidable (StoreWF s) := by
  unfold StoreWF; infer_instance

/-- What the data-model invariant requires of an exposed document: a
string `id` derived from the internal identifier, and no `_id` field. -/
def ExposedOK (d : Doc) : Prop :=
  (∃ i : Nat, getField d "id" = some (Value.str (toString i))) ∧
  getField d "_id" = none

/-- The documents carried by a read response. -/
def respDocs : ReadResp → List Doc
  | ReadResp.obj d => [d]
  | ReadResp.arr ds => ds

/-!
## Shared lemmas
-/

/-- Exposing a fetched document appends the public id to its body. -/
theorem exposeDoc_eq (i : Nat) (d : Doc) :
    exposeDoc (i, d) = d ++ [("id", Value.str (toString i))] := by
  simp [exposeDoc, materialize, popRenameId, eraseKey, getField, valueToString, Value.oid]

/-- Lookup skips a prefix in which the key is absent. -/
theorem getField_append_left (d₁ d₂ : Doc) (k : String) (h : getField d₁ k = none) :
    getField (d₁ ++ d₂) k = getField d₂ k := by
  induction d₁ with
  | nil => rfl
  | cons kv rest ih =>
      obtain ⟨k₁, v₁⟩ := kv
      by_cases hk : k₁ = k
      · simp [getField, hk] at h
      · simp only [getField, List.cons_append, if_neg hk] at h ⊢
        exact ih h

/-- A public document body has neither reserved key. -/
theorem getField_public_none (d : Doc) (h : DocPublic d) :
    getField d "_id" = none ∧ getField d "id" = none := by
  induction d with
  | nil => exact ⟨rfl, rfl⟩
  | cons kv rest ih =>
      obtain ⟨h1, h2⟩ := h kv (List.mem_cons_self ..)
      obtain ⟨r1, r2⟩ := ih (fun x hx => h x (List.mem_cons_of_mem _ hx))
      constructor <;> simp [getField, h1, h2, r1, r2]

/-- Exposing a public document body yields a conforming response
document: a string `id` and no `_id`. -/
theorem ExposedOK_exposeDoc (i : Nat) (d : Doc) (h : DocPublic d) :
    ExposedOK (exposeDoc (i, d)) := by
  obtain ⟨h1, h2⟩ := getField_public_none d h
  rw [exposeDoc_eq]
  refine ⟨⟨i, ?_⟩, ?_⟩
  · rw [getField_append_left _ _ _ h2]; simp [getField]
  · rw [getField_append_left _ _ _ h1]; simp [getField]

/-- `find_one_latest` returns an element of the collection. -/
theorem find_one_latest_mem (l : List (Nat × Doc)) :
    ∀ p : Nat × Doc, find_one_latest l = some p → p ∈ l := by
  induction l with
  | nil => intro p h; cases h
  | cons x xs ih =>
      intro p h
      unfold find_one_latest at h
      cases hx : find_one_latest xs with
      | none => rw [hx] at h; cases h; exact List.mem_cons_self ..
      | some y =>
          rw [hx] at h
          injection h with h
          subst h
          split
          · exact List.mem_cons_self ..
          · exact List.mem_cons_of_mem _ (ih y hx)

/-- Unfolding lemmas for upsert sequences. -/
theorem runUpserts_nil (s : Store) : runUpserts [] s = s := rfl

theorem runUpserts_cons (p : EventInfoIn) (ps : List EventInfoIn) (s : Store) :
    runUpserts (p :: ps) s =
      runUpserts ps (((upsert_event_info p (some s)).2).getD s) := rfl

theorem runUpserts_append (ps qs : List EventInfoIn) (s : Store) :
    runUpserts (ps ++ qs) s = runUpserts qs (runUpserts ps s) :=
  List.foldl_append ..

/-- One upsert against an empty `eventinfo` collection inserts the
payload with a fresh identifier. -/
theorem upsert_step_eventinfo_nil (p : EventInfoIn) (s : Store) (h : s.eventinfo = []) :
    (((upsert_event_info p (some s)).2).getD s).eventinfo = [(s.nextId, p.model_dump)] := by
  simp [upsert_event_info, replace_one_empty_upsert, h]

/-- One upsert against a singleton `eventinfo` collection replaces the
document in place, keeping its identifier. -/
theorem upsert_step_eventinfo_single (p : EventInfoIn) (s : Store) (i : Nat) (d : Doc)
    (h : s.eventinfo = [(i, d)]) :
    (((upsert_event_info p (some s)).2).getD s).eventinfo = [(i, p.model_dump)] := by
  simp [upsert_event_info, replace_one_empty_upsert, h]

/-- Upsert sequences keep the `eventinfo` collection empty or a
singleton. -/
theorem runUpserts_eventinfo_shape (ps : List EventInfoIn) :
    ∀ s : Store, (s.eventinfo = [] ∨ ∃ i d, s.eventinfo = [(i, d)]) →
      ((runUpserts ps s).eventinfo = [] ∨ ∃ i d, (runUpserts ps s).eventinfo = [(i, d)]) := by
  induction ps with
  | nil => intro s h; simpa [runUpserts] using h
  | cons p ps ih =>
      intro s h
      rw [runUpserts_cons]
      apply ih
      rcases h with h | ⟨i, d, h⟩
      · exact Or.inr ⟨s.nextId, p.model_dump, upsert_step_eventinfo_nil p s h⟩
      · exact Or.inr ⟨i, p.model_dump, upsert_step_eventinfo_single p s i d h⟩

/-- Reading `eventinfo` on a singleton collection exposes exactly that
document. -/
theorem get_event_info_single (s : Store) (i : Nat) (d : Doc) (h : s.eventinfo = [(i, d)]) :
    get_event_info (some s) = ReadResp.obj (d ++ [("id", Value.str (toString i))]) := by
  simp [get_event_info, h, find_one_latest, exposeDoc_eq]

/-- C1: after any sequence of `POST /api/eventinfo` upserts with valid
payloads against an available store, starting from an empty `eventinfo`
collection, the collection holds exactly one document and
`GET /api/eventinfo` returns it, matching the content of the last
upserted payload. -/
theorem eventinfo_singleton_law (ps : List EventInfoIn) (p : EventInfoIn) (s₀ : Store)
    (h : s₀.eventinfo = []) :
    ∃ i : Nat,
      (runUpserts (ps ++ [p]) s₀).eventinfo = [(i, p.model_dump)] ∧
      (runUpserts (ps ++ [p]) s₀).eventinfo.length = 1 ∧
      get_event_info (some (runUpserts (ps ++ [p]) s₀)) =
        ReadResp.obj (p.model_dump ++ [("id", Value.str (toString i))]) := by
  have hshape := runUpserts_eventinfo_shape ps s₀ (Or.inl h)
  rw [runUpserts_append]
  have hstep : ∃ i, (runUpserts [p] (runUpserts ps s₀)).eventinfo = [(i, p.model_dump)] := by
    rcases hshape with h1 | ⟨i, d, h1⟩
    · refine ⟨(runUpserts ps s₀).nextId, ?_⟩
      rw [runUpserts_cons, runUpserts_nil]
      exact upsert_step_eventinfo_nil p _ h1
    · refine ⟨i, ?_⟩
      rw [runUpserts_cons, runUpserts_nil]
      exact upsert_step_eventinfo_single p _ i d h1
  obtain ⟨i, hi⟩ := hstep
  exact ⟨i, hi, by rw [hi]; rfl, get_event_info_single _ i _ hi⟩

/-- Witness for C1 at a concrete two-upsert run from the empty store. -/
theorem eventinfo_singleton_law_witness :
    Store.empty.eventinfo = [] ∧
    (∃ i : Nat,
      (runUpserts ([(⟨"A", none, "2025-01-01", "V1", none, none, none, none, none⟩ : EventInfoIn)] ++
          [(⟨"B", none, "2025-01-02", "V2", none, none, none, none, none⟩ : EventInfoIn)])
          Store.empty).eventinfo
        = [(i, EventInfoIn.model_dump ⟨"B", none, "2025-01-02", "V2", none, none, none, none, none⟩)] ∧
      (runUpserts ([(⟨"A", none, "2025-01-01", "V1", none, none, none, none, none⟩ : EventInfoIn)] ++
          [(⟨"B", none, "2025-01-02", "V2", none, none, none, none, none⟩ : EventInfoIn)])
          Store.empty).eventinfo.length = 1 ∧
      get_event_info (some (runUpserts
          ([(⟨"A", none, "2025-01-01", "V1", none, none, none, none, none⟩ : EventInfoIn)] ++
           [(⟨"B", none, "2025-01-02", "V2", none, none, none, none, none⟩ : EventInfoIn)])
          Store.empty)) =
        ReadResp.obj (EventInfoIn.model_dump ⟨"B", none, "2025-01-02", "V2", none, none, none, none, none⟩ ++
          [("id", Value.str (toString i))])) :=
  ⟨rfl, eventinfo_singleton_law _ _ Store.empty rfl⟩

/-- C2: with the store handle absent, every read endpoint returns `[]`
or `{}` and every write endpoint raises a 503 `HTTPException` with a
JSON detail message; every handler is a total function, so no request
crashes the server. -/
theorem degraded_mode_endpoints :
    get_event_info none = ReadResp.obj [] ∧
    (∀ role headliner, list_artists role headliner none = ReadResp.arr []) ∧
    list_experiences none = ReadResp.arr [] ∧
    list_tickets none = ReadResp.arr [] ∧
    list_faqs none = ReadResp.arr [] ∧
    list_testimonials none = ReadResp.arr [] ∧
    list_media none = ReadResp.arr [] ∧
    (∀ p, upsert_event_info p none = (WResp.httpError 503 "Database not available", none)) ∧
    (∀ p, submit_application p none = (WResp.httpError 503 "Database not available", none)) ∧
    (∀ p, subscribe_newsletter p none = (WResp.httpError 503 "Database not available", none)) ∧
    seed_demo_content none = (WResp.httpError 503 "Database not available", none) :=
  ⟨rfl, fun _ _ => rfl, rfl, rfl, rfl, rfl, rfl,
   fun _ => rfl, fun _ => rfl, fun _ => rfl, rfl⟩

/-- The `ApplicationIn` dump has no `status` key. -/
theorem apply_dump_no_status (p : ApplicationIn) :
    getField p.model_dump "status" = none := rfl

/-- C3: every Application document inserted via `POST /api/apply` has
status `"submitted"`, regardless of any status value the caller
supplies in the request payload (the validator has no `status` field,
and the handler force-sets it). -/
theorem application_status_forced (raw : Doc) (s : Store) (p : ApplicationIn)
    (h : ApplicationIn.parse raw = some p) :
    ∃ st : Store,
      (post_apply raw (some s)).2 = some st ∧
      st.application = s.application ++
        [(s.nextId, p.model_dump ++ [("status", Value.str "submitted")])] ∧
      getField (p.model_dump ++ [("status", Value.str "submitted")]) "status" =
        some (Value.str "submitted") := by
  refine ⟨(create_document "application"
      (p.model_dump ++ [("status", Value.str "submitted")]) s).2, ?_, ?_, ?_⟩
  · simp [post_apply, h, submit_application]
  · rfl
  · rw [getField_append_left _ _ _ (apply_dump_no_status p)]; rfl

/-- Witness for C3 at a payload that tries to smuggle in
`status = "accepted"`. -/
theorem application_status_forced_witness :
    ApplicationIn.parse
        [("name", Value.str "Jane"), ("discipline", Value.str "DJ"),
         ("email", Value.str "jane@example.com"), ("status", Value.str "accepted")] =
      some (⟨"Jane", "DJ", none, none, none, none, none, "jane@example.com"⟩ : ApplicationIn) ∧
    (∃ st : Store,
      (post_apply
          [("name", Value.str "Jane"), ("discipline", Value.str "DJ"),
           ("email", Value.str "jane@example.com"), ("status", Value.str "accepted")]
          (some Store.empty)).2 = some st ∧
      st.application = Store.empty.application ++
        [(Store.empty.nextId,
          (⟨"Jane", "DJ", none, none, none, none, none, "jane@example.com"⟩ : ApplicationIn).model_dump ++
            [("status", Value.str "submitted")])] ∧
      getField ((⟨"Jane", "DJ", none, none, none, none, none, "jane@example.com"⟩ : ApplicationIn).model_dump ++
          [("status", Value.str "submitted")]) "status" =
        some (Value.str "submitted")) :=
  ⟨rfl, application_status_forced _ Store.empty _ rfl⟩

/-- C4 counterexample: `POST /api/newsletter` with a payload that
supplies no `source` creates a document with no `source` field at all,
refuting the claim that such documents carry `source = "website"`. -/
theorem newsletter_source_counterexample :
    (((subscribe_newsletter ⟨"ana@example.com", none⟩ (some Store.empty)).2).getD Store.empty).newsletter =
      [(0, [("email", Value.str "ana@example.com"), ("name", Value.null)])] ∧
    getField [("email", Value.str "ana@example.com"), ("name", Value.null)] "source" = none :=
  ⟨rfl, rfl⟩

/-- C4 amended: documents created via `POST /api/newsletter` carry only
the `email` and `name` fields of `NewsletterIn` and never a `source`
field; the `"website"` default exists only in the admin-side
`schemas.Newsletter` collection schema, whose validator fills it in for
a payload without `source`. -/
theorem newsletter_source_amended :
    (∀ (p : NewsletterIn) (s : Store),
        (((subscribe_newsletter p (some s)).2).getD s).newsletter =
          s.newsletter ++ [(s.nextId, p.model_dump)] ∧
        getField p.model_dump "source" = none) ∧
    (∀ e : String, Newsletter.parse [("email", Value.str e)] =
        some ⟨e, none, some "website"⟩) :=
  ⟨fun _ _ => ⟨rfl, rfl⟩, fun _ => rfl⟩

/-- C5 counterexample: a successful `POST /api/eventinfo` responds with
`{"ok": true}` only — no generated `id` and no confirmation `message` —
refuting the claim that every write endpoint returns all three. -/
theorem write_ack_shape_counterexample :
    (upsert_event_info
        ⟨"BlazinVibe", none, "2025-08-23T18:00:00Z", "Neon Docks", none, none, none, none, none⟩
        (some Store.empty)).1 = WResp.ok [("ok", Value.bool true)] ∧
    getField [("ok", Value.bool true)] "id" = none ∧
    getField [("ok", Value.bool true)] "message" = none :=
  ⟨rfl, rfl, rfl⟩

/-- C5 amended: `POST /api/apply` and `POST /api/newsletter` return
`ok = true`, the generated id string and a non-empty confirmation
message on success, while `POST /api/eventinfo` returns `{"ok": true}`
only. -/
theorem write_ack_shapes (pe : EventInfoIn) (pa : ApplicationIn) (pn : NewsletterIn) (s : Store) :
    (upsert_event_info pe (some s)).1 = WResp.ok [("ok", Value.bool true)] ∧
    (submit_application pa (some s)).1 =
      WResp.ok [("ok", Value.bool true), ("id", Value.str (toString s.nextId)),
                ("message", Value.str "Thanks for applying — we’ll get back to you soon.")] ∧
    "Thanks for applying — we’ll get back to you soon." ≠ "" ∧
    (subscribe_newsletter pn (some s)).1 =
      WResp.ok [("ok", Value.bool true), ("id", Value.str (toString s.nextId)),
                ("message", Value.str "Thanks for joining the vibe!")] ∧
    "Thanks for joining the vibe!" ≠ "" :=
  ⟨rfl, rfl, by decide, rfl, by decide⟩

/-- C6 counterexample: `POST /api/apply` with `discipline = "Chef"` —
outside the declared enumeration — is accepted, inserts a document, and
acknowledges with 200, refuting the claim that such payloads are
rejected with the collection left unchanged. -/
theorem apply_enum_counterexample :
    (post_apply [("name", Value.str "Jane"), ("discipline", Value.str "Chef"),
        ("email", Value.str "jane@example.com")] (some Store.empty)).1 =
      WResp.ok [("ok", Value.bool true), ("id", Value.str "0"),
                ("message", Value.str "Thanks for applying — we’ll get back to you soon.")] ∧
    (((post_apply [("name", Value.str "Jane"), ("discipline", Value.str "Chef"),
        ("email", Value.str "jane@example.com")] (some Store.empty)).2).getD Store.empty).application.length
      = 1 ∧
    "Chef" ∉ disciplineValues :=
  ⟨rfl, rfl, by decide⟩

/-- C6 amended: the write-path validator `ApplicationIn` treats
`discipline` as a free string, so `POST /api/apply` accepts and inserts
a document for any discipline value; the closed enumeration
`{DJ, Live Band, Visual Artist, Performer, Other}` is declared only in
the admin-side `schemas.Application` collection schema, whose validator
rejects out-of-set values. -/
theorem apply_discipline_unchecked :
    (∀ (p : ApplicationIn) (s : Store),
        (submit_application p (some s)).1 =
          WResp.ok [("ok", Value.bool true), ("id", Value.str (toString s.nextId)),
                    ("message", Value.str "Thanks for applying — we’ll get back to you soon.")] ∧
        (((submit_application p (some s)).2).getD s).application =
          s.application ++ [(s.nextId, p.model_dump ++ [("status", Value.str "submitted")])]) ∧
    (∀ (raw : Doc) (d : String), getField raw "discipline" = some (Value.str d) →
        d ∉ disciplineValues → Application.parse raw = none) := by
  refine ⟨fun p s => ⟨rfl, rfl⟩, fun raw d hd hmem => ?_⟩
  have hlit : literalWithDefault raw "discipline" disciplineValues "Other" = none := by
    unfold literalWithDefault
    rw [hd]
    show (if d ∈ disciplineValues then some d else none) = none
    exact if_neg hmem
  cases hname : reqStr raw "name" <;> simp [Application.parse, hname, hlit]

/-- Witness for C6 amended, at a concrete payload and the `"Chef"`
discipline. -/
theorem apply_discipline_unchecked_witness :
    getField [("name", Value.str "Jane"), ("discipline", Value.str "Chef"),
        ("email", Value.str "jane@example.com")] "discipline" = some (Value.str "Chef") ∧
    "Chef" ∉ disciplineValues ∧
    Application.parse [("name", Value.str "Jane"), ("discipline", Value.str "Chef"),
        ("email", Value.str "jane@example.com")] = none :=
  ⟨rfl, by decide,
   apply_discipline_unchecked.2 _ "Chef" rfl (by decide)⟩

/-- Pointwise agreement of the handler's filter with the spec-side
filter, for any supplied role value other than the empty string. -/
theorem artists_code_eq_spec (role : Option String) (hl : Option Bool) (s : Store)
    (hr : ∀ r, role = some r → r ≠ "") :
    list_artists role hl (some s) = listArtistsSpec role hl s := by
  have hfilt : ∀ p ∈ s.artist, docMatches (artistsFilter role hl) p.2 =
      specArtistPred role hl p := by
    intro p hp
    cases role with
    | none => cases hl <;> simp [artistsFilter, docMatches, fieldMatches, specArtistPred]
    | some r =>
        have hne : r ≠ "" := hr r rfl
        cases hl <;> simp [artistsFilter, docMatches, fieldMatches, specArtistPred, hne]
  show ReadResp.arr ((s.artist.filter (fun p => docMatches (artistsFilter role hl) p.2)).map exposeDoc) =
    ReadResp.arr ((s.artist.filter (specArtistPred role hl)).map exposeDoc)
  rw [List.filter_congr hfilt]

/-- C9 counterexample: with one stored artist of role `"DJ"`, a request
supplying the role value `""` returns that artist rather than the empty
subset of documents whose `role` equals `""`, refuting the claim for
the supplied value `""` (the handler's `if role:` truthiness test drops
it). -/
theorem artists_filter_counterexample :
    list_artists (some "") none
        (some ⟨1, [], [(0, [("name", Value.str "NovaPulse"), ("role", Value.str "DJ"),
            ("headliner", Value.bool true)])], [], [], [], [], [], [], []⟩) ≠
      listArtistsSpec (some "") none
        ⟨1, [], [(0, [("name", Value.str "NovaPulse"), ("role", Value.str "DJ"),
            ("headliner", Value.bool true)])], [], [], [], [], [], [], []⟩ := by
  decide

/-- C9 amended: `GET /api/artists` returns exactly the subset of artist
documents whose fields equal the supplied filter values (conjunctively,
and the whole collection when no value is supplied) for every non-empty
role value; a supplied role value of `""` is treated as no role filter. -/
theorem artists_filter_semantics :
    (∀ (r : String) (hl : Option Bool) (s : Store), r ≠ "" →
        list_artists (some r) hl (some s) = listArtistsSpec (some r) hl s) ∧
    (∀ (hl : Option Bool) (s : Store),
        list_artists none hl (some s) = listArtistsSpec none hl s) ∧
    (∀ (hl : Option Bool) (s : Store),
        list_artists (some "") hl (some s) = list_artists none hl (some s)) :=
  ⟨fun r hl s hr => artists_code_eq_spec (some r) hl s (fun x hx => by cases hx; exact hr),
   fun hl s => artists_code_eq_spec none hl s (fun x hx => by cases hx),
   fun hl s => rfl⟩

/-- Witness for C9 amended at role `"DJ"` over a two-artist store. -/
theorem artists_filter_semantics_witness :
    ("DJ" : String) ≠ "" ∧
    list_artists (some "DJ") (some true)
        (some ⟨2, [], [(0, [("name", Value.str "NovaPulse"), ("role", Value.str "DJ"),
              ("headliner", Value.bool true)]),
            (1, [("name", Value.str "Flux Dancers"), ("role", Value.str "Performer"),
              ("headliner", Value.bool false)])], [], [], [], [], [], [], []⟩) =
      listArtistsSpec (some "DJ") (some true)
        ⟨2, [], [(0, [("name", Value.str "NovaPulse"), ("role", Value.str "DJ"),
              ("headliner", Value.bool true)]),
            (1, [("name", Value.str "Flux Dancers"), ("role", Value.str "Performer"),
              ("headliner", Value.bool false)])], [], [], [], [], [], [], []⟩ :=
  ⟨by decide, artists_filter_semantics.1 "DJ" (some true) _ (by decide)⟩

/-- C10: the `POST /api/eventinfo` write-path validator `EventInfoIn`
accepts a payload carrying only `name`, `date_iso` and `venue` (and
rejects one missing `name`), even though the declared `Eventinfo`
collection schema additionally requires `address`, `city` and
`country`, rejecting that same payload and accepting it only once the
three fields are supplied. -/
theorem eventinfo_write_validator_permissive (n d v : String) :
    EventInfoIn.parse [("name", Value.str n), ("date_iso", Value.str d), ("venue", Value.str v)] =
      some ⟨n, none, d, v, none, none, none, none, none⟩ ∧
    EventInfoIn.parse [("date_iso", Value.str d), ("venue", Value.str v)] = none ∧
    Eventinfo.parse [("name", Value.str n), ("date_iso", Value.str d), ("venue", Value.str v)] = none ∧
    (∀ a c co : String,
      Eventinfo.parse [("name", Value.str n), ("date_iso", Value.str d), ("venue", Value.str v),
          ("address", Value.str a), ("city", Value.str c), ("country", Value.str co)] =
        some ⟨n, none, d, v, a, c, co, none, []⟩) :=
  ⟨rfl, rfl, rfl, fun _ _ _ => rfl⟩

/-!
## Seed idempotence (C7)
-/

/-- Seeding the `artist` collection touches no other collection and
grows `artist` by the number of seeded documents. -/
theorem seedMany_artist_fields (docs : List Doc) :
    ∀ s : Store, (seedMany "artist" docs s).eventinfo = s.eventinfo ∧
      (seedMany "artist" docs s).experiencezone = s.experiencezone ∧
      (seedMany "artist" docs s).tickettier = s.tickettier ∧
      (seedMany "artist" docs s).faq = s.faq ∧
      (seedMany "artist" docs s).mediaitem = s.mediaitem ∧
      (seedMany "artist" docs s).artist.length = s.artist.length + docs.length := by
  induction docs with
  | nil => intro s; exact ⟨rfl, rfl, rfl, rfl, rfl, rfl⟩
  | cons d ds ih =>
      intro s
      have h := ih ((create_document "artist" d s).2)
      refine ⟨h.1, h.2.1, h.2.2.1, h.2.2.2.1, h.2.2.2.2.1, ?_⟩
      have hstep : (seedMany "artist" (d :: ds) s).artist.length
          = ((create_document "artist" d s).2).artist.length + ds.length := h.2.2.2.2.2
      have hl : ((create_document "artist" d s).2).artist.length = s.artist.length + 1 := by
        show (s.artist ++ [(s.nextId, d)]).length = s.artist.length + 1
        simp
      rw [List.length_cons]
      omega

/-- Seeding the `experiencezone` collection touches no other collection
and grows it by the number of seeded documents. -/
theorem seedMany_zone_fields (docs : List Doc) :
    ∀ s : Store, (seedMany "experiencezone" docs s).eventinfo = s.eventinfo ∧
      (seedMany "experiencezone" docs s).artist = s.artist ∧
      (seedMany "experiencezone" docs s).tickettier = s.tickettier ∧
      (seedMany "experiencezone" docs s).faq = s.faq ∧
      (seedMany "experiencezone" docs s).mediaitem = s.mediaitem ∧
      (seedMany "experiencezone" docs s).experiencezone.length = s.experiencezone.length + docs.length := by
  induction docs with
  | nil => intro s; exact ⟨rfl, rfl, rfl, rfl, rfl, rfl⟩
  | cons d ds ih =>
      intro s
      have h := ih ((create_document "experiencezone" d s).2)
      refine ⟨h.1, h.2.1, h.2.2.1, h.2.2.2.1, h.2.2.2.2.1, ?_⟩
      have hstep : (seedMany "experiencezone" (d :: ds) s).experiencezone.length
          = ((create_document "experiencezone" d s).2).experiencezone.length + ds.length := h.2.2.2.2.2
      have hl : ((create_document "experiencezone" d s).2).experiencezone.length
          = s.experiencezone.length + 1 := by
        show (s.experiencezone ++ [(s.nextId, d)]).length = s.experiencezone.length + 1
        simp
      rw [List.length_cons]
      omega

/-- Seeding the `tickettier` collection touches no other collection and
grows it by the number of seeded documents. -/
theorem seedMany_tier_fields (docs : List Doc) :
    ∀ s : Store, (seedMany "tickettier" docs s).eventinfo = s.eventinfo ∧
      (seedMany "tickettier" docs s).artist = s.artist ∧
      (seedMany "tickettier" docs s).experiencezone = s.experiencezone ∧
      (seedMany "tickettier" docs s).faq = s.faq ∧
      (seedMany "tickettier" docs s).mediaitem = s.mediaitem ∧
      (seedMany "tickettier" docs s).tickettier.length = s.tickettier.length + docs.length := by
  induction docs with
  | nil => intro s; exact ⟨rfl, rfl, rfl, rfl, rfl, rfl⟩
  | cons d ds ih =>
      intro s
      have h := ih ((create_document "tickettier" d s).2)
      refine ⟨h.1, h.2.1, h.2.2.1, h.2.2.2.1, h.2.2.2.2.1, ?_⟩
      have hstep : (seedMany "tickettier" (d :: ds) s).tickettier.length
          = ((create_document "tickettier" d s).2).tickettier.length + ds.length := h.2.2.2.2.2
      have hl : ((create_document "tickettier" d s).2).tickettier.length
          = s.tickettier.length + 1 := by
        show (s.tickettier ++ [(s.nextId, d)]).length = s.tickettier.length + 1
        simp
      rw [List.length_cons]
      omega

/-- Seeding the `faq` collection touches no other collection and grows
it by the number of seeded documents. -/
theorem seedMany_faq_fields (docs : List Doc) :
    ∀ s : Store, (seedMany "faq" docs s).eventinfo = s.eventinfo ∧
      (seedMany "faq" docs s).artist = s.artist ∧
      (seedMany "faq" docs s).experiencezone = s.experiencezone ∧
      (seedMany "faq" docs s).tickettier = s.tickettier ∧
      (seedMany "faq" docs s).mediaitem = s.mediaitem ∧
      (seedMany "faq" docs s).faq.length = s.faq.length + docs.length := by
  induction docs with
  | nil => intro s; exact ⟨rfl, rfl, rfl, rfl, rfl, rfl⟩
  | cons d ds ih =>
      intro s
      have h := ih ((create_document "faq" d s).2)
      refine ⟨h.1, h.2.1, h.2.2.1, h.2.2.2.1, h.2.2.2.2.1, ?_⟩
      have hstep : (seedMany "faq" (d :: ds) s).faq.length
          = ((create_document "faq" d s).2).faq.length + ds.length := h.2.2.2.2.2
      have hl : ((create_document "faq" d s).2).faq.length = s.faq.length + 1 := by
        show (s.faq ++ [(s.nextId, d)]).length = s.faq.length + 1
        simp
      rw [List.length_cons]
      omega

/-- Seeding the `mediaitem` collection touches no other collection and
grows it by the number of seeded documents. -/
theorem seedMany_media_fields (docs : List Doc) :
    ∀ s : Store, (seedMany "mediaitem" docs s).eventinfo = s.eventinfo ∧
      (seedMany "mediaitem" docs s).artist = s.artist ∧
      (seedMany "mediaitem" docs s).experiencezone = s.experiencezone ∧
      (seedMany "mediaitem" docs s).tickettier = s.tickettier ∧
      (seedMany "mediaitem" docs s).faq = s.faq ∧
      (seedMany "mediaitem" docs s).mediaitem.length = s.mediaitem.length + docs.length := by
  induction docs with
  | nil => intro s; exact ⟨rfl, rfl, rfl, rfl, rfl, rfl⟩
  | cons d ds ih =>
      intro s
      have h := ih ((create_document "mediaitem" d s).2)
      refine ⟨h.1, h.2.1, h.2.2.1, h.2.2.2.1, h.2.2.2.2.1, ?_⟩
      have hstep : (seedMany "mediaitem" (d :: ds) s).mediaitem.length
          = ((create_document "mediaitem" d s).2).mediaitem.length + ds.length := h.2.2.2.2.2
      have hl : ((create_document "mediaitem" d s).2).mediaitem.length
          = s.mediaitem.length + 1 := by
        show (s.mediaitem ++ [(s.nextId, d)]).length = s.mediaitem.length + 1
        simp
      rw [List.length_cons]
      omega

/-- After the `eventinfo` seed block, the other seeded collections are
untouched and `eventinfo` is non-empty. -/
theorem seedEventinfo_result (s : Store) :
    ((seedEventinfo s).2).artist = s.artist ∧
    ((seedEventinfo s).2).experiencezone = s.experiencezone ∧
    ((seedEventinfo s).2).tickettier = s.tickettier ∧
    ((seedEventinfo s).2).faq = s.faq ∧
    ((seedEventinfo s).2).mediaitem = s.mediaitem ∧
    ((seedEventinfo s).2).eventinfo ≠ [] := by
  unfold seedEventinfo
  split
  · refine ⟨rfl, rfl, rfl, rfl, rfl, ?_⟩
    show s.eventinfo ++ [(s.nextId, eventinfoSeedDoc)] ≠ []
    simp
  · next h =>
      exact ⟨rfl, rfl, rfl, rfl, rfl, fun hc => h (by rw [hc]; rfl)⟩

/-- After the `artist` seed block, the other seeded collections are
untouched and `artist` is non-empty. -/
theorem seedArtists_result (s : Store) :
    ((seedArtists s).2).eventinfo = s.eventinfo ∧
    ((seedArtists s).2).experiencezone = s.experiencezone ∧
    ((seedArtists s).2).tickettier = s.tickettier ∧
    ((seedArtists s).2).faq = s.faq ∧
    ((seedArtists s).2).mediaitem = s.mediaitem ∧
    ((seedArtists s).2).artist ≠ [] := by
  unfold seedArtists
  split
  · obtain ⟨h1, h2, h3, h4, h5, h6⟩ := seedMany_artist_fields artistSeedDocs s
    refine ⟨h1, h2, h3, h4, h5, fun hc => ?_⟩
    rw [hc] at h6
    have h9 : artistSeedDocs.length = 9 := rfl
    rw [h9] at h6
    simp at h6
  · next h =>
      exact ⟨rfl, rfl, rfl, rfl, rfl, fun hc => h (by rw [hc]; rfl)⟩

/-- After the `experiencezone` seed block, the other seeded collections
are untouched and `experiencezone` is non-empty. -/
theorem seedZones_result (s : Store) :
    ((seedZones s).2).eventinfo = s.eventinfo ∧
    ((seedZones s).2).artist = s.artist ∧
    ((seedZones s).2).tickettier = s.tickettier ∧
    ((seedZones s).2).faq = s.faq ∧
    ((seedZones s).2).mediaitem = s.mediaitem ∧
    ((seedZones s).2).experiencezone ≠ [] := by
  unfold seedZones
  split
  · obtain ⟨h1, h2, h3, h4, h5, h6⟩ := seedMany_zone_fields zoneSeedDocs s
    refine ⟨h1, h2, h3, h4, h5, fun hc => ?_⟩
    rw [hc] at h6
    have h9 : zoneSeedDocs.length = 5 := rfl
    rw [h9] at h6
    simp at h6
  · next h =>
      exact ⟨rfl, rfl, rfl, rfl, rfl, fun hc => h (by rw [hc]; rfl)⟩

/-- After the `tickettier` seed block, the other seeded collections are
untouched and `tickettier` is non-empty. -/
theorem seedTiers_result (s : Store) :
    ((seedTiers s).2).eventinfo = s.eventinfo ∧
    ((seedTiers s).2).artist = s.artist ∧
    ((seedTiers s).2).experiencezone = s.experiencezone ∧
    ((seedTiers s).2).faq = s.faq ∧
    ((seedTiers s).2).mediaitem = s.mediaitem ∧
    ((seedTiers s).2).tickettier ≠ [] := by
  unfold seedTiers
  split
  · obtain ⟨h1, h2, h3, h4, h5, h6⟩ := seedMany_tier_fields tierSeedDocs s
    refine ⟨h1, h2, h3, h4, h5, fun hc => ?_⟩
    rw [hc] at h6
    have h9 : tierSeedDocs.length = 4 := rfl
    rw [h9] at h6
    simp at h6
  · next h =>
      exact ⟨rfl, rfl, rfl, rfl, rfl, fun hc => h (by rw [hc]; rfl)⟩

/-- After the `faq` seed block, the other seeded collections are
untouched and `faq` is non-empty. -/
theorem seedFaqs_result (s : Store) :
    ((seedFaqs s).2).eventinfo = s.eventinfo ∧
    ((seedFaqs s).2).artist = s.artist ∧
    ((seedFaqs s).2).experiencezone = s.experiencezone ∧
    ((seedFaqs s).2).tickettier = s.tickettier ∧
    ((seedFaqs s).2).mediaitem = s.mediaitem ∧
    ((seedFaqs s).2).faq ≠ [] := by
  unfold seedFaqs
  split
  · obtain ⟨h1, h2, h3, h4, h5, h6⟩ := seedMany_faq_fields faqSeedDocs s
    refine ⟨h1, h2, h3, h4, h5, fun hc => ?_⟩
    rw [hc] at h6
    have h9 : faqSeedDocs.length = 4 := rfl
    rw [h9] at h6
    simp at h6
  · next h =>
      exact ⟨rfl, rfl, rfl, rfl, rfl, fun hc => h (by rw [hc]; rfl)⟩

/-- After the `mediaitem` seed block, the other seeded collections are
untouched and `mediaitem` is non-empty. -/
theorem seedMedia_result (s : Store) :
    ((seedMedia s).2).eventinfo = s.eventinfo ∧
    ((seedMedia s).2).artist = s.artist ∧
    ((seedMedia s).2).experiencezone = s.experiencezone ∧
    ((seedMedia s).2).tickettier = s.tickettier ∧
    ((seedMedia s).2).faq = s.faq ∧
    ((seedMedia s).2).mediaitem ≠ [] := by
  unfold seedMedia
  split
  · obtain ⟨h1, h2, h3, h4, h5, h6⟩ := seedMany_media_fields mediaSeedDocs s
    refine ⟨h1, h2, h3, h4, h5, fun hc => ?_⟩
    rw [hc] at h6
    have h9 : mediaSeedDocs.length = 6 := rfl
    rw [h9] at h6
    simp at h6
  · next h =>
      exact ⟨rfl, rfl, rfl, rfl, rfl, fun hc => h (by rw [hc]; rfl)⟩

/-- On a non-empty `eventinfo` collection, the seed block does nothing. -/
theorem seedEventinfo_noop (s : Store) (h : s.eventinfo ≠ []) :
    seedEventinfo s = (false, s) := by
  unfold seedEventinfo
  exact if_neg (by simpa [List.length_eq_zero] using h)

/-- On a non-empty `artist` collection, the seed block does nothing. -/
theorem seedArtists_noop (s : Store) (h : s.artist ≠ []) :
    seedArtists s = (0, s) := by
  unfold seedArtists
  exact if_neg (by simpa [List.length_eq_zero] using h)

/-- On a non-empty `experiencezone` collection, the seed block does
nothing. -/
theorem seedZones_noop (s : Store) (h : s.experiencezone ≠ []) :
    seedZones s = (0, s) := by
  unfold seedZones
  exact if_neg (by simpa [List.length_eq_zero] using h)

/-- On a non-empty `tickettier` collection, the seed block does
nothing. -/
theorem seedTiers_noop (s : Store) (h : s.tickettier ≠ []) :
    seedTiers s = (0, s) := by
  unfold seedTiers
  exact if_neg (by simpa [List.length_eq_zero] using h)

/-- On a non-empty `faq` collection, the seed block does nothing. -/
theorem seedFaqs_noop (s : Store) (h : s.faq ≠ []) :
    seedFaqs s = (0, s) := by
  unfold seedFaqs
  exact if_neg (by simpa [List.length_eq_zero] using h)

/-- On a non-empty `mediaitem` collection, the seed block does
nothing. -/
theorem seedMedia_noop (s : Store) (h : s.mediaitem ≠ []) :
    seedMedia s = (0, s) := by
  unfold seedMedia
  exact if_neg (by simpa [List.length_eq_zero] using h)

/-- When all six seeded collections are non-empty, `POST /api/seed`
creates nothing and leaves the store unchanged. -/
theorem seed_noop (t : Store) (he : t.eventinfo ≠ []) (ha : t.artist ≠ [])
    (hz : t.experiencezone ≠ []) (ht : t.tickettier ≠ []) (hf : t.faq ≠ [])
    (hm : t.mediaitem ≠ []) :
    seed_demo_content (some t) =
      (WResp.ok [("ok", Value.bool true),
                 ("created", Value.primMap
                    [("eventinfo", Prim.bool false),
                     ("artist", Prim.num 0),
                     ("experiencezone", Prim.num 0),
                     ("tickettier", Prim.num 0),
                     ("faq", Prim.num 0),
                     ("mediaitem", Prim.num 0)])],
       some t) := by
  simp [seed_demo_content, seedEventinfo_noop t he, seedArtists_noop t ha,
        seedZones_noop t hz, seedTiers_noop t ht, seedFaqs_noop t hf,
        seedMedia_noop t hm]

/-- C7: calling `POST /api/seed` twice in succession with the store
available leaves the same per-collection document counts as calling it
once: the second call reports nothing created (`eventinfo: false`, all
counts 0, re-checked from collection emptiness) and returns the store
exactly as the first call left it. -/
theorem seed_idempotent (s : Store) :
    seed_demo_content ((seed_demo_content (some s)).2) =
      (WResp.ok [("ok", Value.bool true),
                 ("created", Value.primMap
                    [("eventinfo", Prim.bool false),
                     ("artist", Prim.num 0),
                     ("experiencezone", Prim.num 0),
                     ("tickettier", Prim.num 0),
                     ("faq", Prim.num 0),
                     ("mediaitem", Prim.num 0)])],
       (seed_demo_content (some s)).2) := by
  have E := seedEventinfo_result s
  have A := seedArtists_result ((seedEventinfo s).2)
  have Z := seedZones_result ((seedArtists ((seedEventinfo s).2)).2)
  have T := seedTiers_result ((seedZones ((seedArtists ((seedEventinfo s).2)).2)).2)
  have F := seedFaqs_result
    ((seedTiers ((seedZones ((seedArtists ((seedEventinfo s).2)).2)).2)).2)
  have M := seedMedia_result
    ((seedFaqs ((seedTiers ((seedZones ((seedArtists ((seedEventinfo s).2)).2)).2)).2)).2)
  have h6 : (seed_demo_content (some s)).2 =
      some ((seedMedia
        ((seedFaqs ((seedTiers ((seedZones ((seedArtists ((seedEventinfo s).2)).2)).2)).2)).2)).2) := rfl
  have he : ((seedMedia
      ((seedFaqs ((seedTiers ((seedZones ((seedArtists ((seedEventinfo s).2)).2)).2)).2)).2)).2).eventinfo ≠ [] := by
    rw [M.1, F.1, T.1, Z.1, A.1]
    exact E.2.2.2.2.2
  have ha : ((seedMedia
      ((seedFaqs ((seedTiers ((seedZones ((seedArtists ((seedEventinfo s).2)).2)).2)).2)).2)).2).artist ≠ [] := by
    rw [M.2.1, F.2.1, T.2.1, Z.2.1]
    exact A.2.2.2.2.2
  have hz : ((seedMedia
      ((seedFaqs ((seedTiers ((seedZones ((seedArtists ((seedEventinfo s).2)).2)).2)).2)).2)).2).experiencezone ≠ [] := by
    rw [M.2.2.1, F.2.2.1, T.2.2.1]
    exact Z.2.2.2.2.2
  have ht : ((seedMedia
      ((seedFaqs ((seedTiers ((seedZones ((seedArtists ((seedEventinfo s).2)).2)).2)).2)).2)).2).tickettier ≠ [] := by
    rw [M.2.2.2.1, F.2.2.2.1]
    exact T.2.2.2.2.2
  have hf : ((seedMedia
      ((seedFaqs ((seedTiers ((seedZones ((seedArtists ((seedEventinfo s).2)).2)).2)).2)).2)).2).faq ≠ [] := by
    rw [M.2.2.2.2.1]
    exact F.2.2.2.2.2
  have hm : ((seedMedia
      ((seedFaqs ((seedTiers ((seedZones ((seedArtists ((seedEventinfo s).2)).2)).2)).2)).2)).2).mediaitem ≠ [] :=
    M.2.2.2.2.2
  rw [h6]
  exact seed_noop _ he ha hz ht hf hm

/-- Every document produced by exposing a list of public stored
documents satisfies the public-id invariant. -/
theorem mem_exposeAll_ok (l : List (Nat × Doc)) (hl : ∀ p ∈ l, DocPublic p.2)
    (d : Doc) (hd : d ∈ l.map exposeDoc) : ExposedOK d := by
  obtain ⟨p, hp, rfl⟩ := List.mem_map.mp hd
  exact ExposedOK_exposeDoc p.1 p.2 (hl p hp)

/-- `GET /api/eventinfo` returns `{}` or the exposed latest document. -/
theorem get_event_info_eq (s : Store) :
    get_event_info (some s) = ReadResp.obj [] ∨
    ∃ p, find_one_latest s.eventinfo = some p ∧
      get_event_info (some s) = ReadResp.obj (exposeDoc p) := by
  cases hfind : find_one_latest s.eventinfo with
  | none =>
      refine Or.inl ?_
      show (match find_one_latest s.eventinfo with
            | none => ReadResp.obj []
            | some p => ReadResp.obj (exposeDoc p)) = ReadResp.obj []
      rw [hfind]
  | some p =>
      refine Or.inr ⟨p, rfl, ?_⟩
      show (match find_one_latest s.eventinfo with
            | none => ReadResp.obj []
            | some p => ReadResp.obj (exposeDoc p)) = ReadResp.obj (exposeDoc p)
      rw [hfind]

/-- C8: over any store whose collections hold documents free of the
reserved keys, every document returned by a public read endpoint
carries a string `id` derived from the internal identifier, and the
internal `_id` field is absent from every response (the `eventinfo`
endpoint additionally may return the empty object). -/
theorem read_endpoints_public_id (s : Store) (hwf : StoreWF s) :
    (∀ role hl d, d ∈ respDocs (list_artists role hl (some s)) → ExposedOK d) ∧
    (∀ d, d ∈ respDocs (list_experiences (some s)) → ExposedOK d) ∧
    (∀ d, d ∈ respDocs (list_tickets (some s)) → ExposedOK d) ∧
    (∀ d, d ∈ respDocs (list_faqs (some s)) → ExposedOK d) ∧
    (∀ d, d ∈ respDocs (list_testimonials (some s)) → ExposedOK d) ∧
    (∀ d, d ∈ respDocs (list_media (some s)) → ExposedOK d) ∧
    (∀ d, d ∈ respDocs (get_event_info (some s)) → d = [] ∨ ExposedOK d) := by
  obtain ⟨h1, h2, h3, h4, h5, h6, h7⟩ := hwf
  refine ⟨?_, ?_, ?_, ?_, ?_, ?_, ?_⟩
  · intro role hl d hd
    exact mem_exposeAll_ok _ (fun p hp => h2 p (List.mem_of_mem_filter hp)) d hd
  · intro d hd
    exact mem_exposeAll_ok _ (fun p hp => h3 p (List.mem_of_mem_filter hp)) d hd
  · intro d hd
    exact mem_exposeAll_ok _ (fun p hp => h4 p (List.mem_of_mem_filter hp)) d hd
  · intro d hd
    exact mem_exposeAll_ok _ (fun p hp => h5 p (List.mem_of_mem_filter hp)) d hd
  · intro d hd
    exact mem_exposeAll_ok _ (fun p hp => h6 p (List.mem_of_mem_filter hp)) d hd
  · intro d hd
    exact mem_exposeAll_ok _ (fun p hp => h7 p (List.mem_of_mem_filter hp)) d hd
  · intro d hd
    rcases get_event_info_eq s with hcase | ⟨p, hfind, hcase⟩
    · rw [hcase] at hd
      simp [respDocs] at hd
      exact Or.inl hd
    · rw [hcase] at hd
      simp [respDocs] at hd
      subst hd
      exact Or.inr (ExposedOK_exposeDoc p.1 p.2 (h1 p (find_one_latest_mem _ p hfind)))

/-- Witness for C8 at a concrete one-artist store. -/
theorem read_endpoints_public_id_witness :
    StoreWF ⟨1, [], [(0, [("name", Value.str "NovaPulse"), ("role", Value.str "DJ"),
        ("headliner", Value.bool true)])], [], [], [], [], [], [], []⟩ ∧
    ExposedOK [("name", Value.str "NovaPulse"), ("role", Value.str "DJ"),
               ("headliner", Value.bool true), ("id", Value.str "0")] :=
  ⟨by decide,
   (read_endpoints_public_id
      ⟨1, [], [(0, [("name", Value.str "NovaPulse"), ("role", Value.str "DJ"),
          ("headliner", Value.bool true)])], [], [], [], [], [], [], []⟩ (by decide)).1
      none none
      [("name", Value.str "NovaPulse"), ("role", Value.str "DJ"),
       ("headliner", Value.bool true), ("id", Value.str "0")]
      (by decide)⟩
